import Mathlib

/- Verification of the smart-farmer backend weather/soil core
   (src/weather/services.py, src/weather/models.py).

   Modelling conventions:
   * Python floats are modelled as exact rationals (the constants 0.2, 0.1,
     0.3, 0.5, 24 hours, ... become the corresponding rationals).
   * Timestamps are integers counting hours; is_expired compares
     now > expires_at exactly as WeatherCache.is_expired does.
   * The external HTTP call is modelled by an explicit argument of type
     Except String α: the outcome the remote endpoint would produce if the
     service called it.  The services perform the call only on a cache miss
     or an expired entry.
   * A payload dict that may carry the keys _stale_cache and _cache_warning
     is modelled as a record with the core data, a Boolean for the
     _stale_cache key and an optional warning string.  Freshly parsed API
     responses are built from scratch by _parse_api_response and
     _parse_soil_response with a fixed key set, hence carry no marker.
   * Both WeatherService.fetch_rainfall_data and
     SoilService.fetch_soil_properties raise one exception class apiece
     (WeatherServiceError, SoilServiceError); the class is recorded in
     ServiceFailure.cls and the raise site, which in Python is visible only
     in the message text, in ServiceFailure.reason. -/

namespace SmartFarmer

/-- Python exception classes raised by the two fetch services. -/
inductive ErrClass where
  | weatherServiceError
  | soilServiceError
deriving DecidableEq

/-- Raise sites inside the cached-fetch operation.  In the Python code the
distinction between them appears only in the message string of the raised
exception, never in the exception class. -/
inductive FailReason where
  | invalidCoordinates
  | upstreamNoCache
deriving DecidableEq

/-- A raised service exception: its Python class and its raise site. -/
structure ServiceFailure where
  cls : ErrClass
  reason : FailReason
deriving DecidableEq

/-- A payload dict together with the optional stale-marker keys
_stale_cache and _cache_warning. -/
structure Payload (α : Type) where
  core : α
  staleCache : Bool
  cacheWarning : Option String
deriving DecidableEq

/-- A freshly parsed API response: fixed keys, no stale marker. -/
def freshPayload {α : Type} (d : α) : Payload α := ⟨d, false, none⟩

/-- One row of the weather_cache / soil_cache table for a location key. -/
structure CacheEntry (α : Type) where
  data : Payload α
  expiresAt : ℤ
deriving DecidableEq

/-- WeatherCache.is_expired and SoilCache.is_expired:
timezone.now() > self.expires_at. -/
def is_expired {α : Type} (now : ℤ) (e : CacheEntry α) : Bool :=
  decide (now > e.expiresAt)

/-- Side effects of the fetch operation on cache and network. -/
inductive Effect where
  | cacheRead
  | remoteCall
  | cacheWrite
deriving DecidableEq

/-- The warning string attached on stale fallback. -/
def cacheWarningText : String := "Using cached data due to API unavailability"

/-- WeatherService._validate_coordinates and
SoilService._validate_coordinates:
-90 <= lat <= 90 and -180 <= lon <= 180. -/
def _validate_coordinates (lat lon : ℚ) : Bool :=
  decide (-90 ≤ lat ∧ lat ≤ 90 ∧ -180 ≤ lon ∧ lon ≤ 180)

/-- Result of one run of the cached-fetch operation: the returned value or
raised failure, the cache row for the location key after the run, and the
cache/network effects that were performed, in order. -/
structure FetchResult (α : Type) where
  result : Except ServiceFailure (Payload α)
  cache : Option (CacheEntry α)
  effects : List Effect

/-- Common body of WeatherService.fetch_rainfall_data and
SoilService.fetch_soil_properties; the two Python methods are line-for-line
the same algorithm, differing only in the exception class cls they raise.
Steps, in source order: validate coordinates (before any I/O); read the
cache row without deleting it; return its payload if not expired; otherwise
call the remote API; on success write the cache (24 h TTL) and return the
fresh data; on failure return the stale payload with the marker keys set
when a row exists, else raise. -/
def cachedFetch {α : Type} (cls : ErrClass) (lat lon : ℚ) (now : ℤ)
    (cache : Option (CacheEntry α)) (remote : Except String α) :
    FetchResult α :=
  if ¬ _validate_coordinates lat lon then
    ⟨.error ⟨cls, .invalidCoordinates⟩, cache, []⟩
  else
    match cache with
    | some e =>
      if ¬ is_expired now e then
        ⟨.ok e.data, some e, [.cacheRead]⟩
      else
        match remote with
        | .ok d =>
          ⟨.ok (freshPayload d), some ⟨freshPayload d, now + 24⟩,
            [.cacheRead, .remoteCall, .cacheWrite]⟩
        | .error _ =>
          ⟨.ok { e.data with staleCache := true
                             cacheWarning := some cacheWarningText },
            some e, [.cacheRead, .remoteCall]⟩
    | none =>
      match remote with
      | .ok d =>
        ⟨.ok (freshPayload d), some ⟨freshPayload d, now + 24⟩,
          [.cacheRead, .remoteCall, .cacheWrite]⟩
      | .error _ =>
        ⟨.error ⟨cls, .upstreamNoCache⟩, none, [.cacheRead, .remoteCall]⟩

/-- WeatherService.fetch_rainfall_data (weather/services.py lines 38-106). -/
def fetch_rainfall_data {α : Type} :
    ℚ → ℚ → ℤ → Option (CacheEntry α) → Except String α → FetchResult α :=
  cachedFetch .weatherServiceError

/-- SoilService.fetch_soil_properties (weather/services.py lines 964-1024). -/
def fetch_soil_properties {α : Type} :
    ℚ → ℚ → ℤ → Option (CacheEntry α) → Except String α → FetchResult α :=
  cachedFetch .soilServiceError

/-- The Python exception class of a failed result, if any: what the except
clauses of the presentation layer (weather/views.py) can observe. -/
def errClass {α : Type} : Except ServiceFailure (Payload α) → Option ErrClass
  | .error f => some f.cls
  | .ok _ => none

/-- The cache table, keyed by location_key (unique in the schema). -/
abbrev CacheTable (α : Type) := List (String × CacheEntry α)

/-- WeatherCache.objects.get(location_key=key). -/
def dbGet {α : Type} (t : CacheTable α) (key : String) :
    Option (CacheEntry α) :=
  (t.find? fun p => decide (p.1 = key)).map Prod.snd

/-- WeatherCache.get_cached_data (weather/models.py lines 56-75): return the
row if present and not expired; if it is expired, delete the row and return
None; if absent, return None. -/
def get_cached_data {α : Type} (now : ℤ) (t : CacheTable α) (key : String) :
    Option (CacheEntry α) × CacheTable α :=
  match dbGet t key with
  | none => (none, t)
  | some e =>
    if is_expired now e then (none, t.eraseP fun p => decide (p.1 = key))
    else (some e, t)

/-- WeatherService._get_fallback_cache (weather/services.py lines 239-256):
objects.get and return the row data regardless of expiry, with no delete. -/
def _get_fallback_cache {α : Type} (t : CacheTable α) (key : String) :
    Option (Payload α) × CacheTable α :=
  ((dbGet t key).map CacheEntry.data, t)

/-! Rainfall pattern analysis (WeatherService._analyze_rainfall_patterns,
weather/services.py lines 338-401). -/

/-- np.cumsum with a running accumulator. -/
def cumsumFrom (acc : ℚ) : List ℚ → List ℚ
  | [] => []
  | x :: xs => (acc + x) :: cumsumFrom (acc + x) xs

/-- np.cumsum. -/
def cumsum (l : List ℚ) : List ℚ := cumsumFrom 0 l

/-- NASA POWER missing data indicator. -/
def MISSING_DATA : ℚ := -999

/-- One item of the precipitation dict: the parsed date key (year and
day-of-year, as datetime.strptime produces them) and the reading. -/
structure Reading where
  year : ℕ
  doy : ℕ
  rainfall : ℚ
deriving DecidableEq

/-- The readings the grouping loop keeps: a reading equal to the sentinel
-999 is skipped with continue. -/
def keptReadings (rs : List Reading) : List Reading :=
  rs.filter fun r => decide (r.rainfall ≠ MISSING_DATA)

/-- Ascending insertion of a year into a sorted list. -/
def insertAsc (x : ℕ) : List ℕ → List ℕ
  | [] => [x]
  | y :: ys => if x ≤ y then x :: y :: ys else y :: insertAsc x ys

/-- Ascending sort (models Python sorted on the year keys). -/
def sortAsc : List ℕ → List ℕ
  | [] => []
  | x :: xs => insertAsc x (sortAsc xs)

/-- years = sorted(yearly_data.keys()): the distinct years that own at
least one kept reading, ascending. -/
def yearsOf (kept : List Reading) : List ℕ :=
  sortAsc (kept.map Reading.year).dedup

/-- yearly_data[y].get(doy): the dict entry for a (year, day-of-year) key.
Date-string keys of the precipitation dict are distinct, so at most one
kept reading carries a given key; with duplicates the last assignment to
the dict would win, hence the reverse search. -/
def lookupRain (kept : List Reading) (y doy : ℕ) : Option ℚ :=
  (kept.reverse.find? fun r => decide (r.year = y ∧ r.doy = doy)).map
    Reading.rainfall

/-- daily_rainfall = [yearly_data[year].get(doy, 0) for doy in
range(1, 366)]: days of year 1..365, absent days count 0. -/
def daily_rainfall (lookup : ℕ → Option ℚ) : List ℚ :=
  (List.range' 1 365).map fun d => (lookup d).getD 0

/-- Onset of one year: annual_total = cumulative[-1], threshold = 20
percent of it, onset = next((i + 1 for i, val in enumerate(cumulative) if
val >= threshold), 180). -/
def onset_doy (daily : List ℚ) : ℕ :=
  let cumulative := cumsum daily
  let threshold := cumulative.getLastD 0 * (1 / 5)
  match cumulative.findIdx? (fun v => decide (threshold ≤ v)) with
  | some i => i + 1
  | none => 180

/-- int(x) in Python: truncation toward zero. -/
def intTrunc (q : ℚ) : ℤ := if q < 0 then -Int.floor (-q) else Int.floor q

/-- The dict returned by WeatherService._analyze_rainfall_patterns.  The
Python dict stores onset_variability = np.std(onset_days); the standard
deviation of a rational sample is irrational in general, so the model
stores its square, the population variance, which determines it uniquely
(np.std is the nonnegative square root of this field). -/
structure RainfallAnalysis where
  rainy_season_start_doy : ℤ
  onset_variability_sq : ℚ
  years_analyzed : ℕ
  onset_days_by_year : List ℕ
deriving DecidableEq

/-- The analysis over the already filtered readings.  np.mean of an empty
sample is NaN and int(NaN) raises, so an input with no kept readings is an
error value. -/
def analyzeKept (kept : List Reading) : Except Unit RainfallAnalysis :=
  let years := yearsOf kept
  let onset_days := years.map fun y =>
    onset_doy (daily_rainfall (lookupRain kept y))
  if onset_days = [] then .error ()
  else
    let n : ℚ := onset_days.length
    let mean : ℚ := (onset_days.map fun d => (d : ℚ)).sum / n
    .ok ⟨intTrunc mean,
      (onset_days.map fun d => ((d : ℚ) - mean) ^ 2).sum / n,
      years.length, onset_days⟩

/-- WeatherService._analyze_rainfall_patterns: group the readings by year
and day of year discarding the sentinel, then analyze. -/
def _analyze_rainfall_patterns (rs : List Reading) :
    Except Unit RainfallAnalysis :=
  analyzeKept (keptReadings rs)

/-- WeatherService._calculate_confidence_level (weather/services.py lines
403-438), reading onset_variability (the standard deviation) and
rainy_season_start_doy out of the analysis dict. -/
def _calculate_confidence_level (variability : ℚ) (mean_onset : ℤ) : ℚ :=
  if mean_onset = 0 then 1 / 2
  else
    let cv := variability / (mean_onset : ℚ)
    let confidence :=
      if cv < 1 / 10 then 9 / 10 + (1 / 10 - cv)
      else if cv > 3 / 10 then max 0 (1 / 2 - (cv - 3 / 10) * 2)
      else 1 / 2 + (1 / 10 - cv) * 2
    max 0 (min 1 confidence)

/-! Crop suitability scoring (CropSuitabilityService,
weather/services.py lines 538-872). -/

/-- CropSuitabilityService._calculate_range_score.  Python float division
by zero raises ZeroDivisionError, so every division of the source carries
an error case, reached exactly when its branch is reached with a zero
divisor. -/
def _calculate_range_score (value min_value max_value optimal_range : ℚ) :
    Except Unit ℚ :=
  if value < min_value then
    if max_value - min_value = 0 then .error ()
    else .ok (max 0 (50 - (min_value - value) / (max_value - min_value) * 50))
  else if value > max_value then
    if max_value - min_value = 0 then .error ()
    else .ok (max 0 (50 - (value - max_value) / (max_value - min_value) * 50))
  else
    let midpoint := (min_value + max_value) / 2
    let distance_from_midpoint := |value - midpoint|
    if distance_from_midpoint ≤ optimal_range then .ok 100
    else if (max_value - min_value) / 2 = 0 then .error ()
    else .ok (max 70 (100 - (distance_from_midpoint - optimal_range) /
      ((max_value - min_value) / 2) * 30))

/-- The Crop model fields used by the suitability computation
(weather/models.py lines 222-260). -/
structure Crop where
  name : String
  min_ph : ℚ
  max_ph : ℚ
  min_clay_content : ℚ
  max_clay_content : ℚ
  min_organic_carbon : ℚ
  min_rainfall : ℚ
  max_rainfall : ℚ
  min_temperature : ℚ
  max_temperature : ℚ
  min_elevation : ℚ
  max_elevation : ℚ

/-- The soil_data dict fields the scorer reads. -/
structure SoilData where
  ph_level : ℚ
  clay_content : ℚ
  organic_carbon : ℚ

/-- The climate_data dict fields the scorer reads. -/
structure ClimateData where
  annual_rainfall : ℚ
  mean_temperature : ℚ

/-- CropSuitabilityService._calculate_soil_score: pH 40 percent (tolerance
0.5), clay 35 percent (tolerance 5.0), organic carbon 25 percent with the
asymmetric rule around the minimum. -/
def _calculate_soil_score (crop : Crop) (soil : SoilData) : Except Unit ℚ := do
  let ph_score ← _calculate_range_score soil.ph_level crop.min_ph
    crop.max_ph (1 / 2)
  let clay_score ← _calculate_range_score soil.clay_content
    crop.min_clay_content crop.max_clay_content 5
  let oc_score ←
    if crop.min_organic_carbon ≤ soil.organic_carbon then
      Except.ok (min 100 (70 + (soil.organic_carbon -
        crop.min_organic_carbon) * 3))
    else if crop.min_organic_carbon = 0 then Except.error ()
    else Except.ok (soil.organic_carbon / crop.min_organic_carbon * 70)
  return ph_score * (4 / 10) + clay_score * (35 / 100) + oc_score * (25 / 100)

/-- CropSuitabilityService._calculate_elevation_score: 100 m tolerance. -/
def _calculate_elevation_score (crop : Crop) (elevation : ℚ) :
    Except Unit ℚ :=
  _calculate_range_score elevation crop.min_elevation crop.max_elevation 100

/-- CropSuitabilityService._calculate_climate_score: rainfall 60 percent
(100 mm tolerance), temperature 40 percent (2 degree tolerance). -/
def _calculate_climate_score (crop : Crop) (climate : ClimateData) :
    Except Unit ℚ := do
  let rainfall_score ← _calculate_range_score climate.annual_rainfall
    crop.min_rainfall crop.max_rainfall 100
  let temp_score ← _calculate_range_score climate.mean_temperature
    crop.min_temperature crop.max_temperature 2
  return rainfall_score * (6 / 10) + temp_score * (4 / 10)

/-- CropSuitabilityService.calculate_suitability: weighted combination,
clamped to [0, 100]. -/
def calculate_suitability (crop : Crop) (soil : SoilData) (elevation : ℚ)
    (climate : Option ClimateData) : Except Unit ℚ := do
  let soil_score ← _calculate_soil_score crop soil
  let elevation_score ← _calculate_elevation_score crop elevation
  match climate with
  | some c => do
    let climate_score ← _calculate_climate_score crop c
    return max 0 (min 100 (soil_score * (4 / 10) +
      elevation_score * (3 / 10) + climate_score * (3 / 10)))
  | none =>
    return max 0 (min 100 (soil_score * (6 / 10) + elevation_score * (4 / 10)))

/-- Python round to nearest with ties to even. -/
def roundHalfEven (q : ℚ) : ℤ :=
  if q - Int.floor q < 1 / 2 then Int.floor q
  else if q - Int.floor q > 1 / 2 then Int.floor q + 1
  else if Int.floor q % 2 = 0 then Int.floor q else Int.floor q + 1

/-- round(score, 2). -/
def round2 (q : ℚ) : ℚ := (roundHalfEven (q * 100) : ℚ) / 100

/-- One entry of the rank_crops result list (identification plus score;
the requirement sub-dicts are copied verbatim from the crop row and play
no role in the ranking). -/
structure SuitabilityResult where
  name : String
  suitability_score : ℚ
deriving DecidableEq

/-- The per-crop try block of rank_crops: compute the rounded score, or
drop the crop when the computation raises. -/
def rankEntry (soil : SoilData) (elevation : ℚ) (climate : Option ClimateData)
    (crop : Crop) : Option SuitabilityResult :=
  match calculate_suitability crop soil elevation climate with
  | .ok s => some ⟨crop.name, round2 s⟩
  | .error _ => none

/-- CropSuitabilityService.rank_crops (weather/services.py lines 780-872)
with soil data pre-supplied and the elevation already resolved (the claim
assumes resolvable coordinates and available soil data).  An empty catalog
returns [] early; otherwise each crop is scored, crops whose computation
raises are skipped, and results.sort(key=score, reverse=True) is a stable
descending sort, modelled by mergeSort with the reversed comparison. -/
def rank_crops (catalog : List Crop) (soil : SoilData) (elevation : ℚ)
    (climate : Option ClimateData) : List SuitabilityResult :=
  if catalog.isEmpty then []
  else
    (catalog.filterMap (rankEntry soil elevation climate)).mergeSort
      fun a b => decide (b.suitability_score ≤ a.suitability_score)

instance {ε α : Type} [DecidableEq ε] [DecidableEq α] :
    DecidableEq (Except ε α) := fun x y =>
  match x, y with
  | .ok a, .ok b =>
    if h : a = b then isTrue (by rw [h]) else isFalse (by simp [h])
  | .ok _, .error _ => isFalse (by simp)
  | .error _, .ok _ => isFalse (by simp)
  | .error a, .error b =>
    if h : a = b then isTrue (by rw [h]) else isFalse (by simp [h])

/-! Helper lemmas about the cached-fetch body. -/

theorem cachedFetch_invalid {α : Type} (cls : ErrClass) (lat lon : ℚ)
    (now : ℤ) (cache : Option (CacheEntry α)) (remote : Except String α)
    (hv : _validate_coordinates lat lon = false) :
    cachedFetch cls lat lon now cache remote =
      ⟨.error ⟨cls, .invalidCoordinates⟩, cache, []⟩ := by
  simp [cachedFetch, hv]

theorem cachedFetch_fresh {α : Type} (cls : ErrClass) (lat lon : ℚ)
    (now : ℤ) (e : CacheEntry α) (remote : Except String α)
    (hv : _validate_coordinates lat lon = true)
    (hexp : is_expired now e = false) :
    cachedFetch cls lat lon now (some e) remote =
      ⟨.ok e.data, some e, [.cacheRead]⟩ := by
  simp [cachedFetch, hv, hexp]

theorem cachedFetch_miss_ok {α : Type} (cls : ErrClass) (lat lon : ℚ)
    (now : ℤ) (d : α) (hv : _validate_coordinates lat lon = true) :
    cachedFetch cls lat lon now none (.ok d) =
      ⟨.ok (freshPayload d), some ⟨freshPayload d, now + 24⟩,
        [.cacheRead, .remoteCall, .cacheWrite]⟩ := by
  simp [cachedFetch, hv]

theorem cachedFetch_expired_ok {α : Type} (cls : ErrClass) (lat lon : ℚ)
    (now : ℤ) (e : CacheEntry α) (d : α)
    (hv : _validate_coordinates lat lon = true)
    (hexp : is_expired now e = true) :
    cachedFetch cls lat lon now (some e) (.ok d) =
      ⟨.ok (freshPayload d), some ⟨freshPayload d, now + 24⟩,
        [.cacheRead, .remoteCall, .cacheWrite]⟩ := by
  simp [cachedFetch, hv, hexp]

theorem cachedFetch_stale {α : Type} (cls : ErrClass) (lat lon : ℚ)
    (now : ℤ) (e : CacheEntry α) (m : String)
    (hv : _validate_coordinates lat lon = true)
    (hexp : is_expired now e = true) :
    cachedFetch cls lat lon now (some e) (.error m) =
      ⟨.ok { e.data with staleCache := true
                         cacheWarning := some cacheWarningText },
        some e, [.cacheRead, .remoteCall]⟩ := by
  simp [cachedFetch, hv, hexp]

theorem cachedFetch_miss_error {α : Type} (cls : ErrClass) (lat lon : ℚ)
    (now : ℤ) (m : String) (hv : _validate_coordinates lat lon = true) :
    cachedFetch (α := α) cls lat lon now none (.error m) =
      ⟨.error ⟨cls, .upstreamNoCache⟩, none, [.cacheRead, .remoteCall]⟩ := by
  simp [cachedFetch, hv]

theorem cachedFetch_error_inv {α : Type} (cls : ErrClass) (lat lon : ℚ)
    (now : ℤ) (cache : Option (CacheEntry α)) (remote : Except String α)
    (f : ServiceFailure) (hv : _validate_coordinates lat lon = true)
    (h : (cachedFetch cls lat lon now cache remote).result = .error f) :
    cache = none ∧ (∃ m, remote = .error m) ∧ f = ⟨cls, .upstreamNoCache⟩ := by
  match cache, remote with
  | some e, remote =>
    cases hexp : is_expired now e with
    | false => rw [cachedFetch_fresh cls lat lon now e remote hv hexp] at h
               exact absurd h (by simp)
    | true =>
      match remote with
      | .ok d => rw [cachedFetch_expired_ok cls lat lon now e d hv hexp] at h
                 exact absurd h (by simp)
      | .error m => rw [cachedFetch_stale cls lat lon now e m hv hexp] at h
                    exact absurd h (by simp)
  | none, .ok d =>
    rw [cachedFetch_miss_ok cls lat lon now d hv] at h
    exact absurd h (by simp)
  | none, .error m =>
    rw [cachedFetch_miss_error cls lat lon now m hv] at h
    simp only [Except.error.injEq] at h
    exact ⟨rfl, ⟨m, rfl⟩, h.symm⟩

theorem validate_false_of {lat lon : ℚ}
    (h : lat < -90 ∨ 90 < lat ∨ lon < -180 ∨ 180 < lon) :
    _validate_coordinates lat lon = false := by
  simp only [_validate_coordinates, decide_eq_false_iff_not]
  rintro ⟨h1, h2, h3, h4⟩
  rcases h with h | h | h | h <;> linarith

/-- C1: for every valid coordinate pair, the cached-fetch operation of
WeatherService.fetch_rainfall_data, and likewise
SoilService.fetch_soil_properties, fails (with the upstream-unavailable
failure) only when the remote call failed and no cache row of any age
exists for the location key; a fresh cache row is returned as stored with
no remote call performed; and whenever the remote call is consulted (no
fresh row) and succeeds, the fetched data is returned. -/
theorem upstream_unavailable_only_without_cache {α : Type} (lat lon : ℚ)
    (now : ℤ) (cache : Option (CacheEntry α)) (remote : Except String α)
    (hv : _validate_coordinates lat lon = true) :
    (∀ f, (fetch_rainfall_data lat lon now cache remote).result = .error f ∨
        (fetch_soil_properties lat lon now cache remote).result = .error f →
      cache = none ∧ (∃ m, remote = .error m) ∧
        f.reason = .upstreamNoCache) ∧
    (∀ e, cache = some e → is_expired now e = false →
      fetch_rainfall_data lat lon now cache remote =
        ⟨.ok e.data, some e, [.cacheRead]⟩ ∧
      fetch_soil_properties lat lon now cache remote =
        ⟨.ok e.data, some e, [.cacheRead]⟩) ∧
    (∀ d, remote = .ok d →
      (cache = none ∨ ∃ e, cache = some e ∧ is_expired now e = true) →
      (fetch_rainfall_data lat lon now cache remote).result =
        .ok (freshPayload d) ∧
      (fetch_soil_properties lat lon now cache remote).result =
        .ok (freshPayload d)) := by
  refine ⟨?_, ?_, ?_⟩
  · rintro f (h | h)
    · obtain ⟨hc, hm, hf⟩ :=
        cachedFetch_error_inv .weatherServiceError lat lon now cache remote
          f hv h
      exact ⟨hc, hm, by rw [hf]⟩
    · obtain ⟨hc, hm, hf⟩ :=
        cachedFetch_error_inv .soilServiceError lat lon now cache remote
          f hv h
      exact ⟨hc, hm, by rw [hf]⟩
  · rintro e rfl hexp
    exact ⟨cachedFetch_fresh _ lat lon now e remote hv hexp,
      cachedFetch_fresh _ lat lon now e remote hv hexp⟩
  · rintro d rfl (rfl | ⟨e, rfl, hexp⟩)
    · exact ⟨by rw [fetch_rainfall_data, cachedFetch_miss_ok _ lat lon now d hv],
        by rw [fetch_soil_properties, cachedFetch_miss_ok _ lat lon now d hv]⟩
    · exact ⟨by rw [fetch_rainfall_data,
          cachedFetch_expired_ok _ lat lon now e d hv hexp],
        by rw [fetch_soil_properties,
          cachedFetch_expired_ok _ lat lon now e d hv hexp]⟩

/-- Witness for C1: valid coordinates, no cache row, remote succeeds: the
fetched data comes back from both services. -/
theorem upstream_unavailable_only_without_cache_witness :
    (fetch_rainfall_data (α := Unit) 0 0 0 none (.ok ())).result =
      .ok (freshPayload ()) ∧
    (fetch_soil_properties (α := Unit) 0 0 0 none (.ok ())).result =
      .ok (freshPayload ()) := by
  exact (upstream_unavailable_only_without_cache (α := Unit) 0 0 0 none
    (.ok ()) (by decide)).2.2 () rfl (Or.inl rfl)

/-- C6: when the cached fetch falls back to a stale cache row (remote
failed, expired row exists) the returned payload of either service carries
_stale_cache = True together with the human-readable warning string, on top
of the stored core data; a successful remote fetch returns an unmarked
payload, a fresh-cache hit returns the stored payload (unmarked whenever
the stored row is, which the last clause shows is the only kind of row the
operation ever writes). -/
theorem stale_fallback_is_marked {α : Type} (lat lon : ℚ) (now : ℤ)
    (cache : Option (CacheEntry α)) (remote : Except String α)
    (hv : _validate_coordinates lat lon = true) :
    (∀ e m, cache = some e → is_expired now e = true → remote = .error m →
      ∃ p, (fetch_rainfall_data lat lon now cache remote).result = .ok p ∧
        (fetch_soil_properties lat lon now cache remote).result = .ok p ∧
        p.staleCache = true ∧ p.cacheWarning = some cacheWarningText ∧
        p.core = e.data.core) ∧
    (∀ d, remote = .ok d →
      (cache = none ∨ ∃ e, cache = some e ∧ is_expired now e = true) →
      (fetch_rainfall_data lat lon now cache remote).result =
        .ok ⟨d, false, none⟩ ∧
      (fetch_soil_properties lat lon now cache remote).result =
        .ok ⟨d, false, none⟩) ∧
    (∀ e, cache = some e → is_expired now e = false →
      e.data.staleCache = false → e.data.cacheWarning = none →
      ∃ p, (fetch_rainfall_data lat lon now cache remote).result = .ok p ∧
        (fetch_soil_properties lat lon now cache remote).result = .ok p ∧
        p.staleCache = false ∧ p.cacheWarning = none) ∧
    ((fetch_rainfall_data lat lon now cache remote).cache = cache ∨
      ∃ d, (fetch_rainfall_data lat lon now cache remote).cache =
        some ⟨⟨d, false, none⟩, now + 24⟩) ∧
    ((fetch_soil_properties lat lon now cache remote).cache = cache ∨
      ∃ d, (fetch_soil_properties lat lon now cache remote).cache =
        some ⟨⟨d, false, none⟩, now + 24⟩) := by
  have hwrite : ∀ cls, (cachedFetch cls lat lon now cache remote).cache = cache ∨
      ∃ d, (cachedFetch cls lat lon now cache remote).cache =
        some ⟨⟨d, false, none⟩, now + 24⟩ := by
    intro cls
    match cache, remote with
    | some e, remote =>
      cases hexp : is_expired now e with
      | false => rw [cachedFetch_fresh cls lat lon now e remote hv hexp]
                 exact Or.inl rfl
      | true =>
        match remote with
        | .ok d => rw [cachedFetch_expired_ok cls lat lon now e d hv hexp]
                   exact Or.inr ⟨d, rfl⟩
        | .error m => rw [cachedFetch_stale cls lat lon now e m hv hexp]
                      exact Or.inl rfl
    | none, .ok d =>
      rw [cachedFetch_miss_ok cls lat lon now d hv]
      exact Or.inr ⟨d, rfl⟩
    | none, .error m =>
      rw [cachedFetch_miss_error cls lat lon now m hv]
      exact Or.inl rfl
  refine ⟨?_, ?_, ?_, hwrite .weatherServiceError, hwrite .soilServiceError⟩
  · rintro e m rfl hexp rfl
    refine ⟨{ e.data with staleCache := true
                          cacheWarning := some cacheWarningText },
      ?_, ?_, rfl, rfl, rfl⟩
    · rw [fetch_rainfall_data, cachedFetch_stale _ lat lon now e m hv hexp]
    · rw [fetch_soil_properties, cachedFetch_stale _ lat lon now e m hv hexp]
  · rintro d rfl (rfl | ⟨e, rfl, hexp⟩)
    · constructor
      · rw [fetch_rainfall_data, cachedFetch_miss_ok _ lat lon now d hv]
        rfl
      · rw [fetch_soil_properties, cachedFetch_miss_ok _ lat lon now d hv]
        rfl
    · constructor
      · rw [fetch_rainfall_data, cachedFetch_expired_ok _ lat lon now e d hv hexp]
        rfl
      · rw [fetch_soil_properties, cachedFetch_expired_ok _ lat lon now e d hv hexp]
        rfl
  · rintro e rfl hexp hst hwa
    refine ⟨e.data, ?_, ?_, hst, hwa⟩
    · rw [fetch_rainfall_data, cachedFetch_fresh _ lat lon now e remote hv hexp]
    · rw [fetch_soil_properties, cachedFetch_fresh _ lat lon now e remote hv hexp]

/-- Witness for C6: an expired row with unmarked data plus a failing remote
call produces the stale-marked payload. -/
theorem stale_fallback_is_marked_witness :
    ∃ p : Payload Unit,
      (fetch_rainfall_data 0 0 5 (some ⟨⟨(), false, none⟩, 0⟩)
        (.error "down")).result = .ok p ∧
      p.staleCache = true ∧ p.cacheWarning = some cacheWarningText := by
  obtain ⟨p, h1, _, h3, h4, _⟩ :=
    (stale_fallback_is_marked (α := Unit) 0 0 5 (some ⟨⟨(), false, none⟩, 0⟩)
      (.error "down") (by decide)).1 ⟨⟨(), false, none⟩, 0⟩ "down" rfl
      (by decide) rfl
  exact ⟨p, h1, h3, h4⟩

/-- C8 counterexample: the claim asserts the invalid-coordinates failure is
a typed error distinguishable from the upstream failure; in the code both
raise sites raise the same exception class (WeatherServiceError, message
text apart), which is all the except clauses in weather/views.py observe,
so the failure type of a run with latitude 100 equals the failure type of
an upstream-failure run. -/
theorem invalid_coords_same_class_counterexample :
    (fetch_rainfall_data (α := Unit) 100 0 0 none (.ok ())).result =
      .error ⟨.weatherServiceError, .invalidCoordinates⟩ ∧
    (fetch_rainfall_data (α := Unit) 0 0 0 none (.error "down")).result =
      .error ⟨.weatherServiceError, .upstreamNoCache⟩ ∧
    errClass (fetch_rainfall_data (α := Unit) 100 0 0 none (.ok ())).result =
      errClass (fetch_rainfall_data (α := Unit) 0 0 0 none
        (.error "down")).result := by
  exact ⟨rfl, rfl, rfl⟩

/-- C8 amended: out-of-range coordinates make both services fail
immediately, before any cache read, cache write or remote call (the effect
trace is empty and the cache row is untouched), with the
invalid-coordinates raise of the service exception class; that raise site
is distinguishable from the upstream failure only through the message text
(the reason), while the exception class is the same one the upstream
failure uses. -/
theorem invalid_coordinates_pre_io {α : Type} (lat lon : ℚ) (now : ℤ)
    (cache : Option (CacheEntry α)) (remote : Except String α)
    (h : lat < -90 ∨ 90 < lat ∨ lon < -180 ∨ 180 < lon) :
    fetch_rainfall_data lat lon now cache remote =
      ⟨.error ⟨.weatherServiceError, .invalidCoordinates⟩, cache, []⟩ ∧
    fetch_soil_properties lat lon now cache remote =
      ⟨.error ⟨.soilServiceError, .invalidCoordinates⟩, cache, []⟩ ∧
    FailReason.invalidCoordinates ≠ FailReason.upstreamNoCache ∧
    errClass (fetch_rainfall_data lat lon now cache remote).result =
      some .weatherServiceError := by
  have hv := validate_false_of h
  refine ⟨cachedFetch_invalid _ lat lon now cache remote hv,
    cachedFetch_invalid _ lat lon now cache remote hv, by decide, ?_⟩
  rw [fetch_rainfall_data, cachedFetch_invalid _ lat lon now cache remote hv]
  rfl

/-- Witness for C8 (amended): latitude 100 rejected before any effect. -/
theorem invalid_coordinates_pre_io_witness :
    fetch_rainfall_data (α := Unit) 100 0 0 none (.ok ()) =
      ⟨.error ⟨.weatherServiceError, .invalidCoordinates⟩, none, []⟩ ∧
    fetch_soil_properties (α := Unit) 100 0 0 none (.ok ()) =
      ⟨.error ⟨.soilServiceError, .invalidCoordinates⟩, none, []⟩ := by
  have h := invalid_coordinates_pre_io (α := Unit) 100 0 0 none (.ok ())
    (Or.inr (Or.inl (by norm_num)))
  exact ⟨h.1, h.2.1⟩

theorem dbGet_eraseP_self {α : Type} (t : CacheTable α) (key : String)
    (hnd : (t.map Prod.fst).Nodup) :
    dbGet (t.eraseP fun p => decide (p.1 = key)) key = none := by
  induction t with
  | nil => rfl
  | cons hd tl ih =>
    simp only [List.map_cons, List.nodup_cons] at hnd
    by_cases hk : hd.1 = key
    · rw [List.eraseP_cons_of_pos (by simp [hk])]
      have hfind : List.find? (fun p => decide (p.1 = key)) tl = none := by
        rw [List.find?_eq_none]
        intro x hx
        simp only [decide_eq_true_eq]
        intro hxk
        exact hnd.1 (hk ▸ hxk ▸ List.mem_map_of_mem Prod.fst hx)
      simp [dbGet, hfind]
    · rw [List.eraseP_cons_of_neg (by simp [hk])]
      show Option.map Prod.snd (List.find? (fun p => decide (p.1 = key))
        (hd :: List.eraseP (fun p => decide (p.1 = key)) tl)) = none
      rw [List.find?_cons_of_neg _ (by simp [hk])]
      exact ih hnd.2

/-- C7: a key holding an entry whose expiry has passed: get_cached_data
deletes the row and reports absent (the key no longer resolves in the
resulting table), while the even-if-expired fallback read returns the
stored payload and leaves the table unchanged. -/
theorem expired_get_evicts_fallback_does_not {α : Type} (now : ℤ)
    (t : CacheTable α) (key : String) (e : CacheEntry α)
    (hget : dbGet t key = some e) (hexp : is_expired now e = true)
    (hnd : (t.map Prod.fst).Nodup) :
    (get_cached_data now t key).1 = none ∧
    dbGet (get_cached_data now t key).2 key = none ∧
    (_get_fallback_cache t key).1 = some e.data ∧
    (_get_fallback_cache t key).2 = t := by
  refine ⟨?_, ?_, ?_, rfl⟩
  · simp [get_cached_data, hget, hexp]
  · simp only [get_cached_data, hget, hexp, if_true]
    exact dbGet_eraseP_self t key hnd
  · simp [_get_fallback_cache, hget]

/-- Witness for C7: a one-row table whose row expired at time 0, read at
time 5. -/
theorem expired_get_evicts_fallback_does_not_witness :
    (get_cached_data 5 [("k", (⟨⟨(), false, none⟩, 0⟩ : CacheEntry Unit))]
      "k").1 = none ∧
    dbGet (get_cached_data 5
      [("k", (⟨⟨(), false, none⟩, 0⟩ : CacheEntry Unit))] "k").2 "k" = none ∧
    (_get_fallback_cache
      [("k", (⟨⟨(), false, none⟩, 0⟩ : CacheEntry Unit))] "k").1 =
      some ⟨(), false, none⟩ := by
  have h := expired_get_evicts_fallback_does_not 5
    [("k", (⟨⟨(), false, none⟩, 0⟩ : CacheEntry Unit))] "k"
    ⟨⟨(), false, none⟩, 0⟩ rfl rfl (by simp)
  exact ⟨h.1, h.2.1, h.2.2.1⟩

/-- C10: the confidence computation is total when the mean onset day is 0:
the guard returns the default moderate confidence 0.5 before the
coefficient of variation cv = variability / mean would divide by zero, for
every variability value. -/
theorem confidence_total_at_zero_onset (v : ℚ) :
    _calculate_confidence_level v 0 = 1 / 2 := by
  simp [_calculate_confidence_level]

/-- C4 counterexample: at cv = 0.2 (variability 2, mean onset day 10) the
code returns 0.3, while the linear interpolation between the boundary
values of the two outer regimes (0.9 as cv approaches 0.1 from below, 0.5
as cv approaches 0.3 from above) evaluates to 0.7 there. -/
theorem confidence_mid_not_interpolation :
    _calculate_confidence_level 2 10 = 3 / 10 ∧
    (9 / 10 + (1 / 2 - 9 / 10) / (3 / 10 - 1 / 10) * (2 / 10 - 1 / 10) : ℚ)
      = 7 / 10 ∧
    (3 / 10 : ℚ) ≠ 7 / 10 := by
  refine ⟨?_, by norm_num, by norm_num⟩
  norm_num [_calculate_confidence_level]

/-- C4 amended: for a positive mean onset day and nonnegative variability,
with cv = variability / meanOnset: cv < 0.1 gives confidence
0.9 + (0.1 - cv), which lies in (0.9, 1]; cv > 0.3 gives
0.5 - 2 (cv - 0.3) floored at 0; for cv in [0.1, 0.3] the confidence is
0.5 + 2 (0.1 - cv) — the same slope as the high regime but starting from
0.5 at cv = 0.1 (not the interpolation between the two regimes, from which
it is discontinuously lower); the returned confidence always lies in
[0, 1]. -/
theorem confidence_regimes (v : ℚ) (m : ℤ) (hm : 0 < m) (hv : 0 ≤ v) :
    (v / (m : ℚ) < 1 / 10 →
      _calculate_confidence_level v m = 9 / 10 + (1 / 10 - v / (m : ℚ)) ∧
      9 / 10 < _calculate_confidence_level v m ∧
      _calculate_confidence_level v m ≤ 1) ∧
    (3 / 10 < v / (m : ℚ) →
      _calculate_confidence_level v m =
        max 0 (1 / 2 - (v / (m : ℚ) - 3 / 10) * 2)) ∧
    (1 / 10 ≤ v / (m : ℚ) → v / (m : ℚ) ≤ 3 / 10 →
      _calculate_confidence_level v m = 1 / 2 + (1 / 10 - v / (m : ℚ)) * 2) ∧
    0 ≤ _calculate_confidence_level v m ∧
    _calculate_confidence_level v m ≤ 1 := by
  have hm0 : m ≠ 0 := ne_of_gt hm
  have hmq : (0 : ℚ) < (m : ℚ) := by exact_mod_cast hm
  have hcv : 0 ≤ v / (m : ℚ) := div_nonneg hv (le_of_lt hmq)
  simp only [_calculate_confidence_level, if_neg hm0]
  set cv := v / (m : ℚ) with hcvdef
  refine ⟨?_, ?_, ?_, ?_, ?_⟩
  · intro h1
    rw [if_pos h1]
    have heq : max 0 (min 1 (9 / 10 + (1 / 10 - cv))) =
        9 / 10 + (1 / 10 - cv) := by
      rw [min_eq_right (by linarith), max_eq_right (by linarith)]
    exact ⟨heq, by rw [heq]; linarith, by rw [heq]; linarith⟩
  · intro h3
    have h1 : ¬ cv < 1 / 10 := by linarith
    rw [if_neg h1, if_pos h3]
    rcases le_or_lt (1 / 2 - (cv - 3 / 10) * 2) 0 with hle | hlt
    · rw [max_eq_left hle]
      norm_num
    · rw [max_eq_right (le_of_lt hlt), min_eq_right (by linarith),
        max_eq_right (by linarith)]
  · intro hlo hhi
    have h1 : ¬ cv < 1 / 10 := not_lt.mpr hlo
    have h3 : ¬ cv > 3 / 10 := not_lt.mpr hhi
    rw [if_neg h1, if_neg h3, min_eq_right (by linarith),
      max_eq_right (by linarith)]
  · positivity
  · have : min 1 (if cv < 1 / 10 then 9 / 10 + (1 / 10 - cv)
        else if cv > 3 / 10 then max 0 (1 / 2 - (cv - 3 / 10) * 2)
        else 1 / 2 + (1 / 10 - cv) * 2) ≤ 1 := min_le_left _ _
    exact max_le (by norm_num) this

/-- Witness for C4 (amended): variability 0 against mean onset 10 lies in
the high-confidence regime and yields confidence 1. -/
theorem confidence_regimes_witness :
    _calculate_confidence_level 0 10 = 1 := by
  have h := (confidence_regimes 0 10 (by norm_num) le_rfl).1 (by norm_num)
  rw [h.1]
  norm_num

/-- C3 counterexample: with range [0, 10] (min < max) and the nonzero
tolerance -1, the exact midpoint 5 scores 94, not 100: the optimal-band
test 0 <= -1 fails, so the decay branch runs and divides the distance
excess 0 - (-1) = 1 by the half-width 5. -/
theorem range_score_neg_tolerance_counterexample :
    ((-1 : ℚ) ≠ 0) ∧ ((0 : ℚ) < 10) ∧
    _calculate_range_score ((0 + 10) / 2) 0 10 (-1) = .ok 94 ∧
    ((94 : ℚ) ≠ 100) := by
  refine ⟨by norm_num, by norm_num, ?_, by norm_num⟩
  norm_num [_calculate_range_score, max_def]

/-- C3 amended: for every range with min < max and every positive
optimalTolerance, the exact midpoint scores exactly 100, every value
strictly below min scores in [0, 50), every value strictly above max
scores in [0, 50), and every value inside [min, max] scores at least 70
(and at most 100); no division raises.  (The unamended claim quantified
over every nonzero tolerance; a negative tolerance makes the midpoint
clause fail, see the counterexample.) -/
theorem range_score_amended (min_value max_value value opt : ℚ)
    (hlt : min_value < max_value) (hopt : 0 < opt) :
    _calculate_range_score ((min_value + max_value) / 2) min_value max_value
      opt = .ok 100 ∧
    (value < min_value → ∃ s,
      _calculate_range_score value min_value max_value opt = .ok s ∧
      0 ≤ s ∧ s < 50) ∧
    (max_value < value → ∃ s,
      _calculate_range_score value min_value max_value opt = .ok s ∧
      0 ≤ s ∧ s < 50) ∧
    (min_value ≤ value → value ≤ max_value → ∃ s,
      _calculate_range_score value min_value max_value opt = .ok s ∧
      70 ≤ s ∧ s ≤ 100) := by
  have hw : 0 < max_value - min_value := by linarith
  refine ⟨?_, ?_, ?_, ?_⟩
  · simp only [_calculate_range_score]
    rw [if_neg (not_lt.mpr (by linarith)), if_neg (not_lt.mpr (by linarith)),
      sub_self, abs_zero, if_pos hopt.le]
  · intro hvlt
    refine ⟨max 0 (50 - (min_value - value) / (max_value - min_value) * 50),
      ?_, le_max_left _ _, ?_⟩
    · simp only [_calculate_range_score]
      rw [if_pos hvlt, if_neg (ne_of_gt hw)]
    · have hpos : 0 < (min_value - value) / (max_value - min_value) * 50 :=
        mul_pos (div_pos (by linarith) hw) (by norm_num)
      exact max_lt (by norm_num) (by linarith)
  · intro hvgt
    refine ⟨max 0 (50 - (value - max_value) / (max_value - min_value) * 50),
      ?_, le_max_left _ _, ?_⟩
    · simp only [_calculate_range_score]
      rw [if_neg (not_lt.mpr (by linarith)), if_pos hvgt,
        if_neg (ne_of_gt hw)]
    · have hpos : 0 < (value - max_value) / (max_value - min_value) * 50 :=
        mul_pos (div_pos (by linarith) hw) (by norm_num)
      exact max_lt (by norm_num) (by linarith)
  · intro h1 h2
    simp only [_calculate_range_score]
    rw [if_neg (not_lt.mpr h1), if_neg (not_lt.mpr h2)]
    by_cases hdist : |value - (min_value + max_value) / 2| ≤ opt
    · exact ⟨100, by rw [if_pos hdist], by norm_num, by norm_num⟩
    · have hhw : ¬ (max_value - min_value) / 2 = 0 := by
        intro h0
        linarith
      refine ⟨max 70 (100 - (|value - (min_value + max_value) / 2| - opt) /
        ((max_value - min_value) / 2) * 30), ?_, le_max_left _ _, ?_⟩
      · rw [if_neg hdist, if_neg hhw]
      · have hp : 0 < (|value - (min_value + max_value) / 2| - opt) /
            ((max_value - min_value) / 2) * 30 :=
          mul_pos (div_pos (by linarith [not_le.mp hdist]) (by linarith))
            (by norm_num)
        exact max_le (by norm_num) (by linarith)

/-- Witness for C3 (amended), on the range [0, 10] with tolerance 1:
midpoint 5 scores 100, the below-range value -2 and the above-range value
12 score in [0, 50), the in-range value 3 scores in [70, 100]. -/
theorem range_score_amended_witness :
    _calculate_range_score ((0 + 10) / 2) 0 10 1 = .ok 100 ∧
    (∃ s, _calculate_range_score (-2) 0 10 1 = .ok s ∧ 0 ≤ s ∧ s < 50) ∧
    (∃ s, _calculate_range_score 12 0 10 1 = .ok s ∧ 0 ≤ s ∧ s < 50) ∧
    (∃ s, _calculate_range_score 3 0 10 1 = .ok s ∧ 70 ≤ s ∧ s ≤ 100) := by
  have hb := range_score_amended 0 10 (-2) 1 (by norm_num) (by norm_num)
  have ha := range_score_amended 0 10 12 1 (by norm_num) (by norm_num)
  have hi := range_score_amended 0 10 3 1 (by norm_num) (by norm_num)
  exact ⟨hb.1, hb.2.1 (by norm_num), ha.2.2.1 (by norm_num),
    hi.2.2.2 (by norm_num) (by norm_num)⟩

theorem cumsumFrom_length (l : List ℚ) :
    ∀ a, (cumsumFrom a l).length = l.length := by
  induction l with
  | nil => intro a; rfl
  | cons x xs ih => intro a; simp [cumsumFrom, ih]

theorem cumsumFrom_get (l : List ℚ) :
    ∀ (a : ℚ) (i : ℕ) (h : i < (cumsumFrom a l).length),
      (cumsumFrom a l).get ⟨i, h⟩ = a + (l.take (i + 1)).sum := by
  induction l with
  | nil => intro a i h; simp [cumsumFrom] at h
  | cons x xs ih =>
    intro a i h
    match i with
    | 0 => simp [cumsumFrom]
    | Nat.succ j =>
      have h' : j < (cumsumFrom (a + x) xs).length := by
        have := h
        simp only [cumsumFrom, List.length_cons] at this
        omega
      simp only [cumsumFrom, List.get_cons_succ, ih (a + x) j h',
        List.take_succ_cons, List.sum_cons]
      ring

theorem cumsumFrom_getLastD (l : List ℚ) :
    ∀ a, (cumsumFrom a l).getLastD a = a + l.sum := by
  induction l with
  | nil => intro a; simp [cumsumFrom]
  | cons x xs ih =>
    intro a
    simp only [cumsumFrom, List.getLastD_cons, ih (a + x), List.sum_cons]
    ring

theorem cumsum_length (l : List ℚ) : (cumsum l).length = l.length :=
  cumsumFrom_length l 0

theorem cumsum_get (l : List ℚ) (i : ℕ) (h : i < (cumsum l).length) :
    (cumsum l).get ⟨i, h⟩ = (l.take (i + 1)).sum := by
  simpa using cumsumFrom_get l 0 i h

theorem cumsum_getLastD (l : List ℚ) : (cumsum l).getLastD 0 = l.sum := by
  simpa using cumsumFrom_getLastD l 0

theorem onset_doy_first_reach_aux (l : List ℚ) :
    (∃ i, ∃ h : i < (cumsum l).length, onset_doy l = i + 1 ∧
      l.sum * (1 / 5) ≤ (cumsum l).get ⟨i, h⟩ ∧
      ∀ j (hj : j < i), (cumsum l).get ⟨j, hj.trans h⟩ < l.sum * (1 / 5)) ∨
    (onset_doy l = 180 ∧ ∀ j (h : j < (cumsum l).length),
      (cumsum l).get ⟨j, h⟩ < l.sum * (1 / 5)) := by
  have honset : onset_doy l =
      match (cumsum l).findIdx? (fun v => decide (l.sum * (1 / 5) ≤ v)) with
      | some i => i + 1
      | none => 180 := by
    simp only [onset_doy, cumsum_getLastD]
  cases hIdx : (cumsum l).findIdx? (fun v => decide (l.sum * (1 / 5) ≤ v)) with
  | some i =>
    obtain ⟨hilt, hfi⟩ := List.findIdx?_eq_some_iff_findIdx_eq.mp hIdx
    subst hfi
    left
    refine ⟨_, hilt, by rw [honset, hIdx], ?_, ?_⟩
    · have h1 := @List.findIdx_getElem _
        (fun v => decide (l.sum * (1 / 5) ≤ v)) (cumsum l) hilt
      simpa [List.get_eq_getElem] using h1
    · intro j hj
      have h2 := @List.not_of_lt_findIdx _
        (fun v => decide (l.sum * (1 / 5) ≤ v)) (cumsum l) j hj
      simpa [List.get_eq_getElem, not_le] using h2
  | none =>
    right
    refine ⟨by rw [honset, hIdx], fun j h => ?_⟩
    have h2 := List.findIdx?_eq_none_iff.mp hIdx _ (List.get_mem (cumsum l) j h)
    simpa [not_le] using h2

theorem onset_doy_of_all_zero (l : List ℚ) (hl : 0 < l.length)
    (h0 : ∀ x ∈ l, x = 0) : onset_doy l = 1 := by
  have hsum : l.sum = 0 := List.sum_eq_zero h0
  have hget : ∀ i (h : i < (cumsum l).length), (cumsum l).get ⟨i, h⟩ = 0 := by
    intro i h
    rw [cumsum_get]
    exact List.sum_eq_zero fun x hx => h0 x (List.mem_of_mem_take hx)
  rcases onset_doy_first_reach_aux l with ⟨i, h, ho, hge, hlt⟩ | ⟨ho, hall⟩
  · have hi0 : i = 0 := by
      by_contra hne
      have h0i : 0 < i := Nat.pos_of_ne_zero hne
      have hx := hlt 0 h0i
      rw [hget 0 (h0i.trans h), hsum] at hx
      norm_num at hx
    rw [hi0] at ho
    exact ho
  · exfalso
    have hlen : 0 < (cumsum l).length := by rw [cumsum_length]; exact hl
    have hx := hall 0 hlen
    rw [hget 0 hlen, hsum] at hx
    norm_num at hx

/-- C2 amended: for every yearly series (the 365-entry day-of-year list
the analyzer builds from the grouped readings, absent days counting 0),
the cumulative list has one entry per day whose value is the partial sum
of the first days; the per-year onset day is the first day-of-year at
which the cumulative rainfall reaches 20 percent of the annual total and
is 180 only when the threshold is never reached; since on an all-zero
series the threshold 0 is already reached on day 1, the degenerate
all-zero year has onset day 1, not 180. -/
theorem onset_doy_first_reach (lookup : ℕ → Option ℚ) :
    (cumsum (daily_rainfall lookup)).length = 365 ∧
    (∀ i (h : i < (cumsum (daily_rainfall lookup)).length),
      (cumsum (daily_rainfall lookup)).get ⟨i, h⟩ =
        ((daily_rainfall lookup).take (i + 1)).sum) ∧
    ((∃ i, ∃ h : i < (cumsum (daily_rainfall lookup)).length,
        onset_doy (daily_rainfall lookup) = i + 1 ∧
        (daily_rainfall lookup).sum * (1 / 5) ≤
          (cumsum (daily_rainfall lookup)).get ⟨i, h⟩ ∧
        ∀ j (hj : j < i),
          (cumsum (daily_rainfall lookup)).get ⟨j, hj.trans h⟩ <
            (daily_rainfall lookup).sum * (1 / 5)) ∨
      (onset_doy (daily_rainfall lookup) = 180 ∧
        ∀ j (h : j < (cumsum (daily_rainfall lookup)).length),
          (cumsum (daily_rainfall lookup)).get ⟨j, h⟩ <
            (daily_rainfall lookup).sum * (1 / 5))) ∧
    onset_doy (daily_rainfall fun _ => some 0) = 1 := by
  refine ⟨?_, fun i h => cumsum_get _ i h, onset_doy_first_reach_aux _, ?_⟩
  · rw [cumsum_length]
    simp [daily_rainfall]
  · refine onset_doy_of_all_zero _ (by
      simp only [daily_rainfall, List.length_map, List.length_range']
      norm_num) ?_
    intro x hx
    simp only [daily_rainfall, List.mem_map] at hx
    obtain ⟨d, _, he⟩ := hx
    simpa using he.symm

/-- C2 counterexample: the precipitation series holding the single reading
(year 2000, day-of-year 1, 0.0 mm) is a degenerate all-zero yearly series;
the claim says its onset day defaults to 180, but the code finds cumulative
0 already at or above the threshold 0.2 * 0 = 0 on day 1, so the analyzer
returns onset_days_by_year = [1] (and mean onset 1), not 180. -/
theorem onset_all_zero_counterexample :
    _analyze_rainfall_patterns [⟨2000, 1, 0⟩] =
      .ok ⟨1, 0, 1, [1]⟩ ∧ (1 : ℕ) ≠ 180 := by
  refine ⟨?_, by decide⟩
  have hkept : keptReadings [(⟨2000, 1, 0⟩ : Reading)] = [⟨2000, 1, 0⟩] := by
    unfold keptReadings
    rw [List.filter_cons_of_pos (by simp [MISSING_DATA]), List.filter_nil]
  have hyears : yearsOf [(⟨2000, 1, 0⟩ : Reading)] = [2000] := by
    unfold yearsOf
    simp [sortAsc, insertAsc]
  have hdaily : ∀ x ∈ daily_rainfall
      (lookupRain [(⟨2000, 1, 0⟩ : Reading)] 2000), x = 0 := by
    intro x hx
    simp only [daily_rainfall, List.mem_map] at hx
    obtain ⟨d, _, he⟩ := hx
    by_cases hd1 : d = 1
    · subst hd1
      rw [← he]
      simp [lookupRain]
    · rw [← he]
      simp [lookupRain, Ne.symm hd1]
  have honset : onset_doy (daily_rainfall
      (lookupRain [(⟨2000, 1, 0⟩ : Reading)] 2000)) = 1 :=
    onset_doy_of_all_zero _ (by simp [daily_rainfall]) hdaily
  unfold _analyze_rainfall_patterns
  rw [hkept]
  unfold analyzeKept
  rw [hyears]
  simp only [List.map_cons, List.map_nil, honset]
  rw [if_neg (by simp)]
  simp only [List.length_cons, List.length_nil, List.sum_cons, List.sum_nil,
    Nat.cast_one, Nat.cast_ofNat, Except.ok.injEq, RainfallAnalysis.mk.injEq]
  norm_num [intTrunc]

theorem analyzeKept_ok (kept : List Reading) (h : yearsOf kept ≠ []) :
    ∃ a, analyzeKept kept = .ok a ∧
      a.years_analyzed = (yearsOf kept).length ∧
      a.onset_days_by_year = (yearsOf kept).map
        (fun y => onset_doy (daily_rainfall (lookupRain kept y))) := by
  simp only [analyzeKept]
  rw [if_neg (fun hm => h (List.map_eq_nil_iff.mp hm))]
  exact ⟨_, rfl, rfl, rfl⟩

/-- C5: a reading equal to the missing-data sentinel -999 is excluded from
the rainfall analysis and is not treated as zero rainfall: inserting a
sentinel reading anywhere in the series leaves the analysis unchanged
(first clause), while there is a series — one real year plus a year whose
only reading is the sentinel — on which replacing the sentinel by a 0.0
reading changes the analysis (the zero reading creates an extra analyzed
year). -/
theorem sentinel_excluded_not_zero :
    (∀ (l1 l2 : List Reading) (r : Reading), r.rainfall = MISSING_DATA →
      _analyze_rainfall_patterns (l1 ++ r :: l2) =
        _analyze_rainfall_patterns (l1 ++ l2)) ∧
    _analyze_rainfall_patterns [⟨2000, 1, 5⟩, ⟨2001, 1, MISSING_DATA⟩] ≠
      _analyze_rainfall_patterns [⟨2000, 1, 5⟩, ⟨2001, 1, 0⟩] := by
  have hpart1 : ∀ (l1 l2 : List Reading) (r : Reading),
      r.rainfall = MISSING_DATA →
      _analyze_rainfall_patterns (l1 ++ r :: l2) =
        _analyze_rainfall_patterns (l1 ++ l2) := by
    intro l1 l2 r hr
    unfold _analyze_rainfall_patterns
    congr 1
    unfold keptReadings
    rw [List.filter_append, List.filter_append,
      List.filter_cons_of_neg (by simp [hr])]
  refine ⟨hpart1, ?_⟩
  have hA := hpart1 [⟨2000, 1, 5⟩] [] ⟨2001, 1, MISSING_DATA⟩ rfl
  simp only [List.cons_append, List.nil_append, List.append_nil] at hA
  have hkA : keptReadings [(⟨2000, 1, 5⟩ : Reading)] = [⟨2000, 1, 5⟩] := by
    unfold keptReadings
    rw [List.filter_cons_of_pos (by norm_num [MISSING_DATA]), List.filter_nil]
  have hkB : keptReadings [(⟨2000, 1, 5⟩ : Reading), ⟨2001, 1, 0⟩] =
      [⟨2000, 1, 5⟩, ⟨2001, 1, 0⟩] := by
    unfold keptReadings
    rw [List.filter_cons_of_pos (by norm_num [MISSING_DATA]),
      List.filter_cons_of_pos (by norm_num [MISSING_DATA]), List.filter_nil]
  have hyA : yearsOf [(⟨2000, 1, 5⟩ : Reading)] = [2000] := by
    unfold yearsOf
    simp [sortAsc, insertAsc]
  have hyB : yearsOf [(⟨2000, 1, 5⟩ : Reading), ⟨2001, 1, 0⟩] =
      [2000, 2001] := by
    unfold yearsOf
    simp [sortAsc, insertAsc]
  obtain ⟨a, ha, hay, _⟩ := analyzeKept_ok
    (keptReadings [(⟨2000, 1, 5⟩ : Reading)]) (by rw [hkA, hyA]; simp)
  obtain ⟨b, hb, hby, _⟩ := analyzeKept_ok
    (keptReadings [(⟨2000, 1, 5⟩ : Reading), ⟨2001, 1, 0⟩])
    (by rw [hkB, hyB]; simp)
  rw [hkA, hyA] at hay
  rw [hkB, hyB] at hby
  simp at hay hby
  intro h
  rw [hA] at h
  unfold _analyze_rainfall_patterns at h
  rw [ha, hb] at h
  have hab : a = b := by
    simpa using h
  have h12 : (1 : ℕ) = 2 := by
    rw [← hay, hab, hby]
  exact absurd h12 (by decide)

/-- Witness for C5: inserting the sentinel reading (2001, day 1, -999)
after the real reading (2000, day 1, 5.0 mm) leaves the analysis of the
one-reading series unchanged. -/
theorem sentinel_excluded_not_zero_witness :
    _analyze_rainfall_patterns [⟨2000, 1, 5⟩, ⟨2001, 1, MISSING_DATA⟩] =
      _analyze_rainfall_patterns [⟨2000, 1, 5⟩] := by
  have h := sentinel_excluded_not_zero.1 [⟨2000, 1, 5⟩] []
    ⟨2001, 1, MISSING_DATA⟩ rfl
  simpa using h

/-- C9: rank_crops returns a sequence sorted non-increasing by suitability
score; it is a permutation of the per-crop results of the catalog in which
each crop whose computation succeeds contributes exactly one entry and a
crop is dropped exactly when its computation raises; and an empty crop
catalog yields the empty result rather than a failure. -/
theorem rank_crops_sorted_complete (catalog : List Crop) (soil : SoilData)
    (elevation : ℚ) (climate : Option ClimateData) :
    (rank_crops catalog soil elevation climate).Pairwise
      (fun a b => b.suitability_score ≤ a.suitability_score) ∧
    (rank_crops catalog soil elevation climate).Perm
      (catalog.filterMap (rankEntry soil elevation climate)) ∧
    rank_crops [] soil elevation climate = [] := by
  have htrans : ∀ a b c : SuitabilityResult,
      decide (b.suitability_score ≤ a.suitability_score) = true →
      decide (c.suitability_score ≤ b.suitability_score) = true →
      decide (c.suitability_score ≤ a.suitability_score) = true := by
    intro a b c hab hbc
    simp only [decide_eq_true_eq] at hab hbc ⊢
    exact le_trans hbc hab
  have htotal : ∀ a b : SuitabilityResult,
      (decide (b.suitability_score ≤ a.suitability_score) ||
        decide (a.suitability_score ≤ b.suitability_score)) = true := by
    intro a b
    rcases le_total b.suitability_score a.suitability_score with h | h
    · simp [h]
    · simp [h]
  refine ⟨?_, ?_, rfl⟩
  · unfold rank_crops
    by_cases hc : catalog.isEmpty
    · rw [if_pos hc]
      exact List.Pairwise.nil
    · rw [if_neg hc]
      exact (List.sorted_mergeSort htrans htotal
        (catalog.filterMap (rankEntry soil elevation climate))).imp
        (fun hab => of_decide_eq_true hab)
  · unfold rank_crops
    by_cases hc : catalog.isEmpty
    · rw [if_pos hc, List.isEmpty_iff.mp hc]
      simp
    · rw [if_neg hc]
      exact List.mergeSort_perm _ _

end SmartFarmer
